import Mathlib

/-!
Shallow embedding of the heypico-google-maps-chat backend core:
the fixed-window rate limiter and its cleanup sweep, the API-key auth
gate, the zod request validator for search-places, the Google Maps
service normalization layer, and the global error handler.

Each definition is translated from the TypeScript source.  Timestamps
(`Date.now()` values) and durations are modelled as natural numbers of
milliseconds; JSON numbers are modelled as rationals; JavaScript's
`undefined` for optional values is modelled with `Option`.
-/

/-! ## JavaScript string and truthiness helpers -/

/-- JS `x || d` for a possibly-undefined string `x` with string default `d`:
the empty string and `undefined` are falsy. -/
def jsOrString (o : Option String) (d : String) : String :=
  match o with
  | some s => if s = "" then d else s
  | none => d

/-- JS template interpolation of a possibly-undefined string
(`undefined` renders as the text "undefined"). -/
def jsShowOptStr (o : Option String) : String := o.getD "undefined"

/-- JS `x || y` where both sides are possibly-undefined strings. -/
def jsOrOptStr (x y : Option String) : Option String :=
  match x with
  | some s => if s = "" then y else some s
  | none => y

/-- JS `String.prototype.replace` with a plain-string pattern and empty
replacement: removes the first occurrence of `needle`, if any. -/
def replaceFirstL (needle : List Char) : List Char → List Char
  | [] => []
  | c :: rest =>
    if needle.isPrefixOf (c :: rest) then (c :: rest).drop needle.length
    else c :: replaceFirstL needle rest

/-- String wrapper for `replaceFirstL`. -/
def replaceFirst (needle s : String) : String := String.mk (replaceFirstL needle.data s.data)

/-- Substring containment on character lists (JS `String.prototype.includes`). -/
def containsSubL (needle : List Char) : List Char → Bool
  | [] => needle.isEmpty
  | c :: rest => needle.isPrefixOf (c :: rest) || containsSubL needle rest

/-- JS `s.includes(needle)`. -/
def strIncludes (s needle : String) : Bool := containsSubL needle.data s.data

/-- String starts-with test, used to express URL well-formedness. -/
def strStartsWith (p s : String) : Bool := p.data.isPrefixOf s.data

/-! ## Rate limiter (src/unnamed/part_001, `rateLimiter`) -/

/-- One per-key entry of the in-memory rate-limit store
(`interface RateLimitStore` in the source). -/
structure RateLimitEntry where
  count : Nat
  resetTime : Nat
deriving DecidableEq

/-- Outcome of one rate-limit check: either the request proceeds, or it
is rejected with 429 and a Retry-After value in seconds. -/
inductive RateLimitDecision where
  | allowed
  | denied (retryAfter : Nat)
deriving DecidableEq

/-- One check of the `rateLimiter` middleware for a single key, acting on
that key's store entry (`none` when the key is absent from the store).
Mirrors the source exactly: a missing or expired entry is replaced by a
fresh one with count 1 and reset time `now + windowMs`; an entry at or
above `maxRequests` denies with `Math.ceil((resetTime - now)/1000)`
seconds and is not mutated; otherwise the count is incremented. -/
def rateLimiter (windowMs maxRequests now : Nat) (entry : Option RateLimitEntry) :
    RateLimitEntry × RateLimitDecision :=
  match entry with
  | none => (⟨1, now + windowMs⟩, .allowed)
  | some e =>
    if e.resetTime < now then (⟨1, now + windowMs⟩, .allowed)
    else if maxRequests ≤ e.count then (e, .denied ((e.resetTime - now + 999) / 1000))
    else ({ e with count := e.count + 1 }, .allowed)

/-- Fold a sequence of checks (at the given times) for one key through the
rate limiter, starting from the given store entry. -/
def rateLimiterRun (windowMs maxRequests : Nat) (entry : Option RateLimitEntry) :
    List Nat → Option RateLimitEntry × List RateLimitDecision
  | [] => (entry, [])
  | t :: ts =>
    let step := rateLimiter windowMs maxRequests t entry
    let rest := rateLimiterRun windowMs maxRequests (some step.1) ts
    (rest.1, step.2 :: rest.2)

/-- The background sweep (`cleanupRateLimitStore` in the source): deletes
every entry with `now > entry.resetTime + 60000`, i.e. whose reset time
is more than one minute (a fixed 60000 ms constant) in the past.  The
store is modelled as an association list. -/
def cleanupRateLimitStore (now : Nat) (store : List (String × RateLimitEntry)) :
    List (String × RateLimitEntry) :=
  store.filter fun kv => !(decide (kv.snd.resetTime + 60000 < now))

/-! ## Error handler (src/unnamed/part_001, `errorHandler`) -/

/-- A single zod validation issue: a field path and a message. -/
structure ZodIssue where
  path : List String
  message : String
deriving DecidableEq

/-- The errors the handler distinguishes: zod validation errors carry a
list of issues, every other JS `Error` is identified by its message. -/
inductive JsError where
  | zodError (issues : List ZodIssue)
  | error (message : String)
deriving DecidableEq

/-- A `details` entry in a validation-error response
(path components joined with a dot). -/
structure IssueDetail where
  path : String
  message : String
deriving DecidableEq

/-- The inner error object of the response envelope. -/
structure ErrorInfo where
  error : String
  message : String
  statusCode : Nat
  details : Option (List IssueDetail)
deriving DecidableEq

/-- JS `Array.prototype.join` with separator ".". -/
def joinDots : List String → String
  | [] => ""
  | [s] => s
  | s :: rest => s ++ "." ++ joinDots rest

/-- The global error handler: returns the error body together with the
HTTP status code.  Zod errors become 400 with per-field details; an error
whose message contains the substring "Google Maps API error" becomes 502
with the message preserved; anything else becomes a generic 500. -/
def errorHandler (err : JsError) : ErrorInfo × Nat :=
  match err with
  | .zodError issues =>
    (⟨"VALIDATION_ERROR", "Invalid request parameters", 400,
      some (issues.map fun i => ⟨joinDots i.path, i.message⟩)⟩, 400)
  | .error msg =>
    if strIncludes msg "Google Maps API error" then
      (⟨"GOOGLE_MAPS_ERROR", msg, 502, none⟩, 502)
    else
      (⟨"INTERNAL_SERVER_ERROR", "An unexpected error occurred", 500, none⟩, 500)

/-! ## Auth gate (src/backend/src/middleware/auth.ts, `apiKeyAuth`) -/

/-- Outcome of the auth middleware: pass through to `next()`, or reject
with 401 (missing key) or 403 (wrong key). -/
inductive AuthResult where
  | next
  | unauthorized
  | forbidden
deriving DecidableEq

/-- The `apiKeyAuth` middleware.  `API_KEY` is the configured key
(`env.API_KEY`, optional; the empty string is falsy so it also disables
auth), `authHeader` the Authorization header, `queryApiKey` the
`api_key` query parameter.  The provided key is
`authHeader?.replace("Bearer ", "") || query`, then: falsy → 401,
mismatch → 403, match → pass. -/
def apiKeyAuth (API_KEY authHeader queryApiKey : Option String) : AuthResult :=
  match API_KEY with
  | none => .next
  | some cfg =>
    if cfg = "" then .next
    else
      match jsOrOptStr (authHeader.map (replaceFirst "Bearer ")) queryApiKey with
      | none => .unauthorized
      | some k =>
        if k = "" then .unauthorized
        else if k = cfg then .next
        else .forbidden

/-! ## HTML tag stripping (src/unnamed/part_002, `getDirections` step mapping)

The source strips markup with the JS regex replace
`html_instructions.replace(/<[^>]*>/g, '')`: each match runs from a `<`
to the first following `>` (the character class `[^>]*` admits every
character except `>`, including further `<`); a `<` with no later `>`
matches nothing and is left in place.  The implementation below is
structurally recursive on an explicit fuel equal to the list length so
that it evaluates inside the kernel. -/

/-- Whether the list contains a `>` character. -/
def hasGtL (l : List Char) : Bool := l.any fun c => c == '>'

/-- The suffix after the first `>` character ([] when there is none). -/
def afterGt : List Char → List Char
  | [] => []
  | c :: rest => if c == '>' then rest else afterGt rest

/-- Fueled worker for the regex replace: on a `<` that has a later `>`,
drop everything through that first `>` and continue; otherwise copy the
character. -/
def stripTagsGo : Nat → List Char → List Char
  | 0, l => l
  | _ + 1, [] => []
  | fuel + 1, c :: rest =>
    if c == '<' && hasGtL rest then stripTagsGo fuel (afterGt rest)
    else c :: stripTagsGo fuel rest

/-- `s.replace(/<[^>]*>/g, '')` from the source. -/
def stripTags (s : String) : String := String.mk (stripTagsGo s.data.length s.data)

/-- Whether some `<` in the list is followed (strictly later) by a `>`,
i.e. whether a complete `<...>` token could still be matched. -/
def hasLtThenGtL : List Char → Bool
  | [] => false
  | c :: rest => (c == '<' && hasGtL rest) || hasLtThenGtL rest

/-- String wrapper for `hasLtThenGtL`. -/
def hasLtThenGt (s : String) : Bool := hasLtThenGtL s.data

/-! ## encodeURIComponent

JS `encodeURIComponent` percent-encodes every character outside
`A-Z a-z 0-9 - _ . ! ~ * ' ( )`, using the uppercase hex digits of the
character's UTF-8 bytes. -/

/-- UTF-8 bytes of a Unicode code point, as natural numbers. -/
def utf8Bytes (n : Nat) : List Nat :=
  if n < 128 then [n]
  else if n < 2048 then [192 + n / 64, 128 + n % 64]
  else if n < 65536 then [224 + n / 4096, 128 + n / 64 % 64, 128 + n % 64]
  else [240 + n / 262144, 128 + n / 4096 % 64, 128 + n / 64 % 64, 128 + n % 64]

/-- Uppercase hexadecimal digit for a value below 16. -/
def hexDigitChar (n : Nat) : Char := if n < 10 then Char.ofNat (48 + n) else Char.ofNat (55 + n)

/-- The non-alphanumeric characters `encodeURIComponent` leaves intact
(`Char.ofNat 39` is the apostrophe). -/
def uriUnreservedExtra : List Char := ['-', '_', '.', '!', '~', '*', Char.ofNat 39, '(', ')']

/-- Whether `encodeURIComponent` leaves the character unescaped. -/
def isUriUnreserved (c : Char) : Bool := c.isAlphanum || uriUnreservedExtra.contains c

/-- Encoding of a single character. -/
def encodeCharL (c : Char) : List Char :=
  if isUriUnreserved c then [c]
  else (utf8Bytes c.toNat).foldr
    (fun b acc => '%' :: hexDigitChar (b / 16) :: hexDigitChar (b % 16) :: acc) []

/-- JS `encodeURIComponent`. -/
def encodeURIComponent (s : String) : String :=
  String.mk (s.data.foldr (fun c acc => encodeCharL c ++ acc) [])

/-! ## Google Maps service (src/unnamed/part_002, `GoogleMapsService`)

Provider payload shapes.  The upstream client may deliver a coordinate
either as a plain number or as a zero-argument accessor function; the
source resolves this with `typeof lat === 'function' ? lat() : lat`, but
passes the raw (unresolved) value to `generateEmbedMapUrl`.  A JS
template literal renders an accessor function as its source text, which
is modelled here by a fixed placeholder string. -/

/-- A provider coordinate: a plain number or an accessor function
returning that number. -/
inductive CoordVal where
  | num (v : Int)
  | fn (v : Int)
deriving DecidableEq

/-- `typeof x === 'function' ? x() : x`. -/
def coordValue : CoordVal → Int
  | .num v => v
  | .fn v => v

/-- How a JS template literal renders a coordinate slot: numbers print
normally, an accessor function prints as its source text (modelled by a
fixed placeholder), `undefined` prints as "undefined". -/
def jsShowCoordOpt : Option CoordVal → String
  | none => "undefined"
  | some (.num v) => toString v
  | some (.fn _) => "[function source text]"

/-- One element of a provider `photos` array. -/
structure GPhoto where
  photo_reference : String
deriving DecidableEq

/-- The provider `geometry.location` object. -/
structure GLatLng where
  lat : Option CoordVal := none
  lng : Option CoordVal := none
deriving DecidableEq

/-- The provider `geometry` object. -/
structure GGeometry where
  location : Option GLatLng := none
deriving DecidableEq

/-- The provider place object consumed by `formatPlaceResult` (the
function types its argument `any`; every field may be absent). -/
structure GPlace where
  place_id : Option String := none
  name : Option String := none
  formatted_address : Option String := none
  vicinity : Option String := none
  geometry : Option GGeometry := none
  rating : Option Rat := none
  user_ratings_total : Option Nat := none
  types : Option (List String) := none
  business_status : Option String := none
  price_level : Option Nat := none
  photos : Option (List GPhoto) := none
deriving DecidableEq

/-- The normalized location of a `PlaceResult` (absent provider
coordinates stay absent). -/
structure LatLngOut where
  lat : Option Int
  lng : Option Int
deriving DecidableEq

/-- The normalized `PlaceResult` shape from src/backend types. -/
structure PlaceResult where
  placeId : Option String
  name : String
  address : String
  location : LatLngOut
  rating : Option Rat
  userRatingsTotal : Option Nat
  types : Option (List String)
  businessStatus : Option String
  priceLevel : Option Nat
  photoUrl : Option String
  googleMapsUrl : String
  embedMapUrl : String
deriving DecidableEq

/-- `generatePlaceUrl`: canonical map link; the interpolated place id
renders as "undefined" when absent, as in JS. -/
def generatePlaceUrl (placeId : Option String) : String :=
  "https://www.google.com/maps/place/?q=place_id:" ++ jsShowOptStr placeId

/-- `generateEmbedMapUrl`: the embed query is `place_id:<id>` when the
place id is truthy, else the raw lat/lng slots rendered and joined with
a comma; the query is passed through `encodeURIComponent`. -/
def generateEmbedMapUrl (apiKey : String) (lat lng : Option CoordVal)
    (placeId : Option String) : String :=
  let query :=
    match placeId with
    | some pid => if pid = "" then jsShowCoordOpt lat ++ "," ++ jsShowCoordOpt lng
                  else "place_id:" ++ pid
    | none => jsShowCoordOpt lat ++ "," ++ jsShowCoordOpt lng
  "https://www.google.com/maps/embed/v1/place?key=" ++ apiKey ++ "&q=" ++
    encodeURIComponent query

/-- `generatePhotoUrl`. -/
def generatePhotoUrl (apiKey photoReference : String) : String :=
  "https://maps.googleapis.com/maps/api/place/photo?maxwidth=400&photo_reference=" ++
    photoReference ++ "&key=" ++ apiKey

/-- `formatPlaceResult`, field by field from the source. -/
def formatPlaceResult (apiKey : String) (place : GPlace) : PlaceResult :=
  let placeId := place.place_id
  let lat := (place.geometry.bind fun g => g.location).bind fun l => l.lat
  let lng := (place.geometry.bind fun g => g.location).bind fun l => l.lng
  { placeId := placeId
    name := jsOrString place.name "Unknown"
    address := jsOrString place.formatted_address
      (jsOrString place.vicinity "Address not available")
    location := ⟨lat.map coordValue, lng.map coordValue⟩
    rating := place.rating
    userRatingsTotal := place.user_ratings_total
    types := place.types
    businessStatus := place.business_status
    priceLevel := place.price_level
    photoUrl :=
      match place.photos with
      | some (p :: _) => some (generatePhotoUrl apiKey p.photo_reference)
      | _ => none
    googleMapsUrl := generatePlaceUrl placeId
    embedMapUrl := generateEmbedMapUrl apiKey lat lng placeId }

/-! ## The four gateway operations (response processing)

Each operation is modelled as the pure processing of the provider
response (the request side is I/O glue).  A thrown JS error is an
`Except.error` carrying the error message.  Accessing a property of
`undefined` (e.g. `routes[0]` of an empty array) throws a `TypeError`;
the message literals below follow the Node runtime, and nothing in the
development depends on their exact text beyond the fact that they do not
contain the substring "Google Maps API error". -/

/-- Text-search / nearby-search provider response. -/
structure PlacesResponse where
  status : String
  results : List GPlace
deriving DecidableEq

/-- `searchPlaces` response processing: any status other than OK /
ZERO_RESULTS throws `Google Maps API error: <status>`; otherwise every
result is normalized with `formatPlaceResult`. -/
def searchPlaces (apiKey : String) (resp : PlacesResponse) :
    Except String (List PlaceResult) :=
  if resp.status ≠ "OK" ∧ resp.status ≠ "ZERO_RESULTS" then
    .error ("Google Maps API error: " ++ resp.status)
  else
    .ok (resp.results.map (formatPlaceResult apiKey))

/-- `getNearbyPlaces` response processing (same policy as `searchPlaces`). -/
def getNearbyPlaces (apiKey : String) (resp : PlacesResponse) :
    Except String (List PlaceResult) :=
  if resp.status ≠ "OK" ∧ resp.status ≠ "ZERO_RESULTS" then
    .error ("Google Maps API error: " ++ resp.status)
  else
    .ok (resp.results.map (formatPlaceResult apiKey))

/-- A provider review object. -/
structure GReview where
  author_name : String
  rating : Rat
  text : String
  time : Nat
deriving DecidableEq

/-- A provider opening-hours object. -/
structure GOpeningHours where
  open_now : Option Bool := none
  weekday_text : Option (List String) := none
deriving DecidableEq

/-- The provider place-details result object: a place plus the
details-only fields. -/
structure GPlaceDetails extends GPlace where
  formatted_phone_number : Option String := none
  website : Option String := none
  opening_hours : Option GOpeningHours := none
  reviews : Option (List GReview) := none
deriving DecidableEq

/-- Place-details provider response (`response.data.result`). -/
structure PlaceDetailsResponse where
  status : String
  result : GPlaceDetails
deriving DecidableEq

/-- A normalized review of the `PlaceDetails` response shape. -/
structure Review where
  authorName : String
  rating : Rat
  text : String
  time : Nat
deriving DecidableEq

/-- Normalized opening hours. -/
structure OpeningHours where
  openNow : Option Bool
  weekdayText : Option (List String)
deriving DecidableEq

/-- The normalized `PlaceDetails` shape (`PlaceResult` plus details). -/
structure PlaceDetails extends PlaceResult where
  phoneNumber : Option String
  website : Option String
  openingHours : Option OpeningHours
  reviews : Option (List Review)
deriving DecidableEq

/-- `review => ({authorName, rating, text, time: Number(review.time)})`. -/
def formatReview (r : GReview) : Review := ⟨r.author_name, r.rating, r.text, r.time⟩

/-- `getPlaceDetails` response processing: only status OK succeeds; the
reviews array, when present, is truncated with `slice(0, 5)`. -/
def getPlaceDetails (apiKey : String) (resp : PlaceDetailsResponse) :
    Except String PlaceDetails :=
  if resp.status ≠ "OK" then
    .error ("Google Maps API error: " ++ resp.status)
  else
    let place := resp.result
    .ok
      { toPlaceResult := formatPlaceResult apiKey place.toGPlace
        phoneNumber := place.formatted_phone_number
        website := place.website
        openingHours := place.opening_hours.map fun oh => ⟨oh.open_now, oh.weekday_text⟩
        reviews := place.reviews.map fun rs => (rs.take 5).map formatReview }

/-- A provider `text`/`value` pair (distance in meters, duration in
seconds). -/
structure GTextValue where
  text : String
  value : Nat
deriving DecidableEq

/-- One provider directions step. -/
structure GStep where
  html_instructions : String
  distance : GTextValue
  duration : GTextValue
deriving DecidableEq

/-- One provider route leg. -/
structure GLeg where
  distance : GTextValue
  duration : GTextValue
  start_address : String
  end_address : String
  steps : List GStep
deriving DecidableEq

/-- One provider route. -/
structure GRoute where
  summary : String
  legs : List GLeg
deriving DecidableEq

/-- Directions provider response. -/
structure DirectionsResponse where
  status : String
  routes : List GRoute
deriving DecidableEq

/-- The validated request body of the directions endpoint, as used by
`getDirections` for URL generation. -/
structure GetDirectionsParams where
  origin : String
  destination : String
  mode : Option String
deriving DecidableEq

/-- One normalized directions step. -/
structure DirectionsStep where
  instruction : String
  distance : String
  duration : String
deriving DecidableEq

/-- The normalized `DirectionsResult` shape. -/
structure DirectionsResult where
  summary : String
  distance : GTextValue
  duration : GTextValue
  startAddress : String
  endAddress : String
  steps : List DirectionsStep
  googleMapsUrl : String
  embedMapUrl : String
deriving DecidableEq

/-- `generateDirectionsUrl`: the `&travelmode=` parameter is appended
only for a truthy mode. -/
def generateDirectionsUrl (origin destination : String) (mode : Option String) : String :=
  let modeParam :=
    match mode with
    | some m => if m = "" then "" else "&travelmode=" ++ m
    | none => ""
  "https://www.google.com/maps/dir/?api=1&origin=" ++ encodeURIComponent origin ++
    "&destination=" ++ encodeURIComponent destination ++ modeParam

/-- `generateEmbedDirectionsUrl`: as above with `&mode=`. -/
def generateEmbedDirectionsUrl (apiKey origin destination : String)
    (mode : Option String) : String :=
  let modeParam :=
    match mode with
    | some m => if m = "" then "" else "&mode=" ++ m
    | none => ""
  "https://www.google.com/maps/embed/v1/directions?key=" ++ apiKey ++ "&origin=" ++
    encodeURIComponent origin ++ "&destination=" ++ encodeURIComponent destination ++ modeParam

/-- `getDirections` response processing: only status OK passes the status
check; then `routes[0]` and `route.legs[0]` are used, so an empty routes
or legs array throws a TypeError; each step instruction is stripped of
markup with `stripTags`. -/
def getDirections (apiKey : String) (params : GetDirectionsParams)
    (resp : DirectionsResponse) : Except String DirectionsResult :=
  if resp.status ≠ "OK" then
    .error ("Google Maps API error: " ++ resp.status)
  else
    match resp.routes with
    | [] => .error "TypeError: Cannot read properties of undefined (reading legs)"
    | route :: _ =>
      match route.legs with
      | [] => .error "TypeError: Cannot read properties of undefined (reading distance)"
      | leg :: _ =>
        .ok
          { summary := route.summary
            distance := leg.distance
            duration := leg.duration
            startAddress := leg.start_address
            endAddress := leg.end_address
            steps := leg.steps.map fun step =>
              ⟨stripTags step.html_instructions, step.distance.text, step.duration.text⟩
            googleMapsUrl := generateDirectionsUrl params.origin params.destination params.mode
            embedMapUrl :=
              generateEmbedDirectionsUrl apiKey params.origin params.destination params.mode }

/-- Outcome of the outbound HTTP call to the provider: either a response
was delivered, or the call itself failed (network error and the like)
and the client library threw an error with some message. -/
inductive UpstreamOutcome (ρ : Type) where
  | response (resp : ρ)
  | failure (message : String)

/-- `searchPlaces` including its try/catch: a throw from the HTTP call is
logged by `handleError` and rethrown unchanged, so the original message
propagates to the error handler. -/
def searchPlacesRun (apiKey : String) :
    UpstreamOutcome PlacesResponse → Except String (List PlaceResult)
  | .response resp => searchPlaces apiKey resp
  | .failure msg => .error msg

/-! ## Request validator (src/backend auth.ts, `SearchPlacesSchema`)

JSON values are modelled by `JVal`; zod's `parse` either returns the
typed value or throws a `ZodError` whose issue list collects the issues
of every field, in shape-declaration order.  Issue message texts follow
zod's defaults (custom messages where the schema sets them). -/

/-- A JSON value. -/
inductive JVal where
  | null
  | bool (b : Bool)
  | num (q : Rat)
  | str (s : String)
  | arr (items : List JVal)
  | obj (fields : List (String × JVal))

/-- Field lookup in a JSON object. -/
def getField (fields : List (String × JVal)) (k : String) : Option JVal :=
  (fields.find? fun p => p.fst == k).map fun p => p.snd

/-- The validated search-places request shape
(`z.infer<typeof SearchPlacesSchema>`). -/
structure SearchPlacesParsed where
  query : String
  location : Option String
  radius : Rat
  type : Option String
deriving DecidableEq

/-- Issues of `query: z.string().min(1, ...).max(500, ...)`. -/
def queryIssues : Option JVal → List ZodIssue
  | none => [⟨["query"], "Required"⟩]
  | some (.str s) =>
    (if s.length < 1 then [⟨["query"], "Query is required"⟩] else []) ++
    (if 500 < s.length then [⟨["query"], "Query too long"⟩] else [])
  | some _ => [⟨["query"], "Expected string"⟩]

/-- Issues of `location: z.string().optional()`. -/
def locationIssues : Option JVal → List ZodIssue
  | none => []
  | some (.str _) => []
  | some _ => [⟨["location"], "Expected string"⟩]

/-- Issues of `radius: z.number().min(1).max(50000).optional().default(5000)`. -/
def radiusIssues : Option JVal → List ZodIssue
  | none => []
  | some (.num q) =>
    (if q < 1 then [⟨["radius"], "Number must be greater than or equal to 1"⟩] else []) ++
    (if 50000 < q then [⟨["radius"], "Number must be less than or equal to 50000"⟩] else [])
  | some _ => [⟨["radius"], "Expected number"⟩]

/-- Issues of `type: z.string().optional()`. -/
def typeIssues : Option JVal → List ZodIssue
  | none => []
  | some (.str _) => []
  | some _ => [⟨["type"], "Expected string"⟩]

/-- Parsed value of the query field (only used when it has no issues). -/
def queryVal : Option JVal → String
  | some (.str s) => s
  | _ => ""

/-- Parsed value of an optional string field. -/
def optStrVal : Option JVal → Option String
  | some (.str s) => some s
  | _ => none

/-- Parsed value of the radius field, with the zod default 5000. -/
def radiusVal : Option JVal → Rat
  | some (.num q) => q
  | _ => 5000

/-- `SearchPlacesSchema.parse`: succeeds exactly when no field has an
issue; otherwise throws the collected issues of all fields. -/
def SearchPlacesSchemaParse (body : JVal) : Except (List ZodIssue) SearchPlacesParsed :=
  match body with
  | .obj fields =>
    let q := getField fields "query"
    let l := getField fields "location"
    let r := getField fields "radius"
    let t := getField fields "type"
    let issues := queryIssues q ++ locationIssues l ++ radiusIssues r ++ typeIssues t
    if issues = [] then
      .ok ⟨queryVal q, optStrVal l, radiusVal r, optStrVal t⟩
    else
      .error issues
  | _ => .error [⟨[], "Expected object"⟩]

/-- Whether an `Except` is a success. -/
def exceptIsOk {ε α : Type} : Except ε α → Bool
  | .ok _ => true
  | .error _ => false

/-- The issue list of a failed parse ([] on success). -/
def exceptIssues {α : Type} : Except (List ZodIssue) α → List ZodIssue
  | .error is => is
  | .ok _ => []

/-- The error message of a failed operation (`none` on success). -/
def exceptErrMsg {α : Type} : Except String α → Option String
  | .error m => some m
  | .ok _ => none

/-- Whether the query field alone satisfies its schema: a string of
length in [1, 500]. -/
def queryOkB (o : Option JVal) : Bool :=
  match o with
  | some (.str s) => decide (1 ≤ s.length) && decide (s.length ≤ 500)
  | _ => false

/-- Whether an optional string field satisfies its schema: absent, or a
string. -/
def optStrOkB (o : Option JVal) : Bool :=
  match o with
  | none => true
  | some (.str _) => true
  | some _ => false

/-- Whether the radius field satisfies its schema: absent, or a number
in [1, 50000]. -/
def radiusOkB (o : Option JVal) : Bool :=
  match o with
  | none => true
  | some (.num q) => decide ((1 : Rat) ≤ q) && decide (q ≤ 50000)
  | some _ => false

/-- The acceptance condition exactly as claim C7 states it: the body has
a query that is a non-empty string of at most 500 characters, and its
radius, when present, is a number in [1, 50000].  Stated from the
claim's words for comparison with the validator, which additionally
constrains `location` and `type` to be strings when present. -/
def searchPlacesAcceptClaimed (body : JVal) : Bool :=
  match body with
  | .obj fields =>
    queryOkB (getField fields "query") && radiusOkB (getField fields "radius")
  | _ => false

/-- The amended acceptance condition: as claimed, plus `location` and
`type` must be strings when present. -/
def searchPlacesAcceptAmended (body : JVal) : Bool :=
  match body with
  | .obj fields =>
    queryOkB (getField fields "query") && optStrOkB (getField fields "location")
      && radiusOkB (getField fields "radius") && optStrOkB (getField fields "type")
  | _ => false

/-- A provider review list with seven entries, for witnesses. -/
def reviewsSeven : List GReview :=
  [⟨"a", 5, "t", 1⟩, ⟨"a", 5, "t", 2⟩, ⟨"a", 5, "t", 3⟩, ⟨"a", 5, "t", 4⟩,
    ⟨"a", 5, "t", 5⟩, ⟨"a", 5, "t", 6⟩, ⟨"a", 5, "t", 7⟩]

/-- A place-details response whose result has seven reviews. -/
def detailsResp9 : PlaceDetailsResponse :=
  ⟨"OK", { toGPlace := { place_id := some "p" }, reviews := some reviewsSeven }⟩

/-- The normalized output produced for `detailsResp9`. -/
def details9 : PlaceDetails :=
  { toPlaceResult := formatPlaceResult "K" detailsResp9.result.toGPlace
    phoneNumber := none
    website := none
    openingHours := none
    reviews := some ((reviewsSeven.take 5).map formatReview) }

/-! ## Helper lemmas -/

/-- Rebuilding a string from its character list is the identity. -/
theorem strMk_data (s : String) : String.mk s.data = s := by
  cases s
  rfl

/-- Character list of an appended string. -/
theorem strData_append (a b : String) : (a ++ b).data = a.data ++ b.data := by
  cases a
  cases b
  rfl

/-- A string with a nonempty left part is nonempty. -/
theorem strAppend_ne_empty (a b : String) (h : a.data ≠ []) : a ++ b ≠ "" := by
  intro he
  apply h
  have hd : (a ++ b).data = ("" : String).data := by rw [he]
  rw [strData_append] at hd
  exact (List.append_eq_nil.mp hd).1

/-- `isPrefixOf` survives extending the larger list on the right. -/
theorem isPrefixOf_append_left {p a : List Char} (b : List Char)
    (h : p.isPrefixOf a = true) : p.isPrefixOf (a ++ b) = true := by
  rw [List.isPrefixOf_iff_prefix] at h ⊢
  exact h.trans (List.prefix_append a b)

/-- `strStartsWith` survives extending the string on the right. -/
theorem strStartsWith_append (p a b : String) (h : strStartsWith p a = true) :
    strStartsWith p (a ++ b) = true := by
  unfold strStartsWith at h ⊢
  rw [strData_append]
  exact isPrefixOf_append_left _ h

/-- A prefix occurrence is an occurrence. -/
theorem containsSubL_of_isPrefixOf {needle l : List Char}
    (h : needle.isPrefixOf l = true) : containsSubL needle l = true := by
  cases l with
  | nil =>
    cases needle with
    | nil => rfl
    | cons c rest => simp [List.isPrefixOf] at h
  | cons c rest => simp [containsSubL, h]

/-- A message of the form `marker ++ rest` includes the marker. -/
theorem strIncludes_of_append (marker rest : String) :
    strIncludes (marker ++ rest) marker = true := by
  unfold strIncludes
  rw [strData_append]
  apply containsSubL_of_isPrefixOf
  apply isPrefixOf_append_left
  rw [List.isPrefixOf_iff_prefix]

/-- Removing a present first occurrence that sits at the very front. -/
theorem replaceFirstL_append (needle rest : List Char) (hne : needle ≠ []) :
    replaceFirstL needle (needle ++ rest) = rest := by
  match needle, hne with
  | c :: n, _ =>
    have hpre : (c :: n).isPrefixOf (c :: n ++ rest) = true := by
      rw [List.isPrefixOf_iff_prefix]
      exact List.prefix_append (c :: n) rest
    show replaceFirstL (c :: n) (c :: (n ++ rest)) = rest
    rw [replaceFirstL]
    simp only [List.cons_append] at hpre
    rw [if_pos hpre]
    exact List.drop_left (c :: n) rest

/-- When the needle occurs nowhere, `replaceFirstL` is the identity. -/
theorem replaceFirstL_of_not_contains {needle : List Char} :
    ∀ {l : List Char}, containsSubL needle l = false → replaceFirstL needle l = l := by
  intro l
  induction l with
  | nil => intro _; rfl
  | cons c rest ih =>
    intro h
    rw [containsSubL, Bool.or_eq_false_iff] at h
    rw [replaceFirstL, if_neg (by simp [h.1]), ih h.2]

/-! ## C1: fixed-window rate limiting -/

/-- Starting from an unexpired entry, a batch of checks all of whose
times lie at or before the reset time, and which keeps the count within
`maxRequests`, is entirely allowed and just increments the count. -/
theorem rateLimiterRun_allowed (windowMs maxRequests R : Nat) :
    ∀ (ts : List Nat) (c : Nat), (∀ t ∈ ts, t ≤ R) → c + ts.length ≤ maxRequests →
      rateLimiterRun windowMs maxRequests (some ⟨c, R⟩) ts =
        (some ⟨c + ts.length, R⟩, ts.map fun _ => RateLimitDecision.allowed) := by
  intro ts
  induction ts with
  | nil => intro c _ _; simp [rateLimiterRun]
  | cons t ts ih =>
    intro c hts hlen
    have ht : ¬ (R < t) := Nat.not_lt.mpr (hts t (by simp))
    have hlen' : c + (ts.length + 1) ≤ maxRequests := by simpa using hlen
    have hc : ¬ (maxRequests ≤ c) := by omega
    have hstep : rateLimiter windowMs maxRequests t (some ⟨c, R⟩) =
        (⟨c + 1, R⟩, .allowed) := by
      simp [rateLimiter, ht, hc]
    have hrec := ih (c + 1) (fun u hu => hts u (by simp [hu])) (by omega)
    have harith : c + 1 + ts.length = c + (ts.length + 1) := by omega
    simp [rateLimiterRun, hstep, hrec, harith]

/-- C1 (amended): for every key, starting from an empty store, exactly
`maxRequests` checks whose times all lie within the window opened by the
first check (at `t0`) are all allowed and leave the entry at
`count = maxRequests`, `windowResetAt = t0 + windowMs`; any further
check at `now ≤ windowResetAt` is denied with
`retryAfterSeconds = ceil((windowResetAt - now)/1000)` and does not
change the stored entry; the retry value is at least 1 whenever
`now < windowResetAt` (in the boundary case `now = windowResetAt` the
check is still denied but with `retryAfterSeconds = 0`); and any check
at `now > windowResetAt` is allowed with the entry replaced by
`count = 1`, `windowResetAt = now + windowMs`. -/
theorem C1_rateLimiter_fixed_window
    (windowMs maxRequests : Nat) (t0 : Nat) (ts : List Nat)
    (hts : ∀ t ∈ ts, t ≤ t0 + windowMs)
    (hlen : 1 + ts.length = maxRequests) :
    rateLimiterRun windowMs maxRequests none (t0 :: ts) =
        (some ⟨maxRequests, t0 + windowMs⟩,
          (t0 :: ts).map fun _ => RateLimitDecision.allowed)
    ∧ (∀ now, now ≤ t0 + windowMs →
        rateLimiter windowMs maxRequests now (some ⟨maxRequests, t0 + windowMs⟩) =
          (⟨maxRequests, t0 + windowMs⟩,
            .denied ((t0 + windowMs - now + 999) / 1000)))
    ∧ (∀ now, now < t0 + windowMs → 1 ≤ (t0 + windowMs - now + 999) / 1000)
    ∧ (∀ now, t0 + windowMs < now →
        rateLimiter windowMs maxRequests now (some ⟨maxRequests, t0 + windowMs⟩) =
          (⟨1, now + windowMs⟩, .allowed)) := by
  refine ⟨?_, ?_, ?_, ?_⟩
  · have hstep : rateLimiter windowMs maxRequests t0 none =
        (⟨1, t0 + windowMs⟩, .allowed) := rfl
    have hrec := rateLimiterRun_allowed windowMs maxRequests (t0 + windowMs) ts 1 hts
      (by omega)
    have harith : 1 + ts.length = maxRequests := hlen
    simp [rateLimiterRun, hstep, hrec, harith]
  · intro now hnow
    have h1 : ¬ (t0 + windowMs < now) := Nat.not_lt.mpr hnow
    simp [rateLimiter, h1]
  · intro now hnow
    have h : 1000 ≤ t0 + windowMs - now + 999 := by omega
    exact (Nat.one_le_div_iff (by norm_num)).mpr h
  · intro now hnow
    simp [rateLimiter, hnow]

/-- Witness for C1: window 60000 ms, limit 2; checks at times 0 and 10
are allowed leaving count 2; a check at 30000 is denied with a 30 s
retry and an unchanged entry; a check at 70000 is allowed with a fresh
entry. -/
theorem C1_rateLimiter_fixed_window_witness :
    rateLimiterRun 60000 2 none [0, 10] =
        (some ⟨2, 60000⟩, [RateLimitDecision.allowed, RateLimitDecision.allowed])
    ∧ rateLimiter 60000 2 30000 (some ⟨2, 60000⟩) = (⟨2, 60000⟩, .denied 30)
    ∧ 1 ≤ (0 + 60000 - 30000 + 999) / 1000
    ∧ rateLimiter 60000 2 70000 (some ⟨2, 60000⟩) = (⟨1, 130000⟩, .allowed) := by
  have h := C1_rateLimiter_fixed_window 60000 2 0 [10]
    (by intro t ht; simp at ht; omega) (by decide)
  refine ⟨?_, ?_, h.2.2.1 30000 (by omega), ?_⟩
  · simpa using h.1
  · have h2 := h.2.1 30000 (by omega)
    norm_num at h2
    simpa using h2
  · have h4 := h.2.2.2 70000 (by omega)
    norm_num at h4
    simpa using h4

/-- C1 counterexample: with window 60000 ms and limit 1, one allowed
check at time 0 fills the window; the next check exactly at the reset
time 60000 is denied, but with `retryAfterSeconds = 0`, contradicting
the claimed `retryAfterSeconds >= 1` for the denied check. -/
theorem C1_rateLimiter_counterexample :
    rateLimiterRun 60000 1 none [0] = (some ⟨1, 60000⟩, [RateLimitDecision.allowed])
    ∧ rateLimiter 60000 1 60000 (some ⟨1, 60000⟩) = (⟨1, 60000⟩, .denied 0)
    ∧ ¬ (1 ≤ 0) := by decide

/-! ## C4: cleanup sweep -/

/-- C4 (amended): the sweep keeps exactly the entries whose reset time is
at most 60000 ms (one minute, a fixed constant independent of the
configured window size) in the past, and removes exactly those whose
reset time is more than 60000 ms in the past. -/
theorem C4_cleanupRateLimitStore_removes_stale
    (now : Nat) (store : List (String × RateLimitEntry))
    (k : String) (e : RateLimitEntry) :
    (k, e) ∈ cleanupRateLimitStore now store ↔
      (k, e) ∈ store ∧ now ≤ e.resetTime + 60000 := by
  simp [cleanupRateLimitStore, List.mem_filter, Nat.not_lt]

/-- C4 counterexample: with a configured window of 10000 ms, an entry
whose reset time (0) is 30000 ms — three windows — in the past at sweep
time is nevertheless kept, because the sweep threshold is the fixed
constant 60000 ms, not one configured window. -/
theorem C4_cleanupRateLimitStore_counterexample :
    cleanupRateLimitStore 30000 [("k", ⟨1, 0⟩)] = [("k", ⟨1, 0⟩)]
    ∧ (0 : Nat) + 10000 < 30000 := by decide

/-! ## C8 and C10: auth gate -/

/-- C8: when no key is configured (absent, or the falsy empty string),
every request passes; when a key is configured, a request with no
credentials at all is rejected 401; a provided (truthy) key different
from the configured key is rejected 403; a provided key equal to the
configured key passes; and whenever the Authorization header yields a
truthy token after Bearer stripping, the query parameter is ignored
(header precedence). -/
theorem C8_apiKeyAuth_gate :
    (∀ hdr q, apiKeyAuth none hdr q = .next)
    ∧ (∀ hdr q, apiKeyAuth (some "") hdr q = .next)
    ∧ (∀ cfg, cfg ≠ "" → apiKeyAuth (some cfg) none none = .unauthorized)
    ∧ (∀ cfg hdr q k, cfg ≠ "" →
        jsOrOptStr (hdr.map (replaceFirst "Bearer ")) q = some k → k ≠ "" → k ≠ cfg →
        apiKeyAuth (some cfg) hdr q = .forbidden)
    ∧ (∀ cfg hdr q, cfg ≠ "" →
        jsOrOptStr (hdr.map (replaceFirst "Bearer ")) q = some cfg →
        apiKeyAuth (some cfg) hdr q = .next)
    ∧ (∀ cfg h q, replaceFirst "Bearer " h ≠ "" →
        apiKeyAuth cfg (some h) q = apiKeyAuth cfg (some h) none) := by
  refine ⟨fun hdr q => rfl, fun hdr q => rfl, ?_, ?_, ?_, ?_⟩
  · intro cfg hcfg
    simp [apiKeyAuth, hcfg, jsOrOptStr]
  · intro cfg hdr q k hcfg heq hk hkc
    simp [apiKeyAuth, hcfg, heq, hk, hkc]
  · intro cfg hdr q hcfg heq
    simp [apiKeyAuth, hcfg, heq]
  · intro cfg h q hstrip
    cases cfg with
    | none => rfl
    | some c =>
      by_cases hc : c = ""
      · simp [apiKeyAuth, hc]
      · simp [apiKeyAuth, hc, jsOrOptStr, hstrip]

/-- Witness for C8, the spec scenario with configured key "secret123":
no credentials → 401; `Bearer wrong` → 403 even with a correct query
key (header precedence); `Bearer secret123` → pass; no configured key →
pass. -/
theorem C8_apiKeyAuth_gate_witness :
    apiKeyAuth (some "secret123") none none = .unauthorized
    ∧ apiKeyAuth (some "secret123") (some "Bearer wrong") none = .forbidden
    ∧ apiKeyAuth (some "secret123") (some "Bearer secret123") none = .next
    ∧ apiKeyAuth none (some "anything") (some "x") = .next
    ∧ apiKeyAuth (some "secret123") (some "Bearer wrong") (some "secret123") =
        apiKeyAuth (some "secret123") (some "Bearer wrong") none := by
  have h := C8_apiKeyAuth_gate
  refine ⟨h.2.2.1 "secret123" (by decide), ?_, ?_, h.1 (some "anything") (some "x"), ?_⟩
  · exact h.2.2.2.1 "secret123" (some "Bearer wrong") none "wrong" (by decide) (by decide)
      (by decide) (by decide)
  · exact h.2.2.2.2.1 "secret123" (some "Bearer secret123") none (by decide) (by decide)
  · exact h.2.2.2.2.2 (some "secret123") "Bearer wrong" (some "secret123") (by decide)

/-- C10 (amended): the gate strips exactly the first occurrence of the
substring "Bearer " from the Authorization header; a header with no
occurrence of that substring at all is compared verbatim (so it is
allowed when it equals a configured key that itself contains no
"Bearer "); and a header of exactly "Bearer " yields an empty token,
falling back to the `api_key` query parameter. -/
theorem C10_apiKeyAuth_bearer_stripping :
    (∀ s : String, replaceFirst "Bearer " ("Bearer " ++ s) = s)
    ∧ (∀ h : String, strIncludes h "Bearer " = false → replaceFirst "Bearer " h = h)
    ∧ (∀ cfg q, cfg ≠ "" → strIncludes cfg "Bearer " = false →
        apiKeyAuth (some cfg) (some cfg) q = .next)
    ∧ (∀ cfg q, cfg ≠ "" →
        apiKeyAuth (some cfg) (some "Bearer ") q = apiKeyAuth (some cfg) none q) := by
  have hrep : ∀ s : String, replaceFirst "Bearer " ("Bearer " ++ s) = s := by
    intro s
    unfold replaceFirst
    rw [strData_append, replaceFirstL_append _ _ (by decide), strMk_data]
  have hid : ∀ h : String, strIncludes h "Bearer " = false →
      replaceFirst "Bearer " h = h := by
    intro h hh
    unfold replaceFirst
    rw [replaceFirstL_of_not_contains hh, strMk_data]
  refine ⟨hrep, hid, ?_, ?_⟩
  · intro cfg q hcfg hnob
    simp [apiKeyAuth, hcfg, jsOrOptStr, hid cfg hnob]
  · intro cfg q hcfg
    have hempty : replaceFirst "Bearer " "Bearer " = "" := by decide
    simp [apiKeyAuth, hcfg, jsOrOptStr, hempty]

/-- Witness for C10: stripping removes only the first "Bearer "
occurrence; a plain key header without the substring passes verbatim;
an exactly-"Bearer " header falls back to the query parameter. -/
theorem C10_apiKeyAuth_bearer_stripping_witness :
    replaceFirst "Bearer " ("Bearer " ++ "Bearer tok") = "Bearer tok"
    ∧ replaceFirst "Bearer " "plainkey" = "plainkey"
    ∧ apiKeyAuth (some "plainkey") (some "plainkey") none = .next
    ∧ apiKeyAuth (some "k") (some "Bearer ") (some "k") =
        apiKeyAuth (some "k") none (some "k") := by
  have h := C10_apiKeyAuth_bearer_stripping
  exact ⟨h.1 "Bearer tok", h.2.1 "plainkey" (by decide),
    h.2.2.1 "plainkey" none (by decide) (by decide),
    h.2.2.2 "k" (some "k") (by decide)⟩

/-- C10 counterexample: with configured key "xBearer y" (which contains
the substring "Bearer " without using the Bearer scheme), a request
whose Authorization header is exactly the configured key is rejected
403, because the middleware strips the inner "Bearer " occurrence
before comparing — the claim asserts such a request is allowed. -/
theorem C10_apiKeyAuth_counterexample :
    apiKeyAuth (some "xBearer y") (some "xBearer y") none = .forbidden
    ∧ strStartsWith "Bearer " "xBearer y" = false := by decide

/-! ## C2: upstream failure classification -/

/-- C2 (amended): a non-success provider status makes the operation throw
`Google Maps API error: <status>`, which the error normalizer classifies
as GOOGLE_MAPS_ERROR with HTTP 502 and the original message preserved;
but a failure of the outbound HTTP call itself is rethrown with its
original message and — whenever that message does not contain the
substring "Google Maps API error" — is classified as
INTERNAL_SERVER_ERROR with HTTP 500 and a generic message, not as
GOOGLE_MAPS_ERROR 502. -/
theorem C2_errorHandler_upstream :
    (∀ apiKey resp, resp.status ≠ "OK" → resp.status ≠ "ZERO_RESULTS" →
      searchPlacesRun apiKey (.response resp) =
          .error ("Google Maps API error: " ++ resp.status)
        ∧ errorHandler (.error ("Google Maps API error: " ++ resp.status)) =
          (⟨"GOOGLE_MAPS_ERROR", "Google Maps API error: " ++ resp.status, 502, none⟩, 502))
    ∧ (∀ apiKey msg, strIncludes msg "Google Maps API error" = false →
        searchPlacesRun apiKey (.failure msg) = .error msg
        ∧ errorHandler (.error msg) =
          (⟨"INTERNAL_SERVER_ERROR", "An unexpected error occurred", 500, none⟩, 500)) := by
  constructor
  · intro apiKey resp h1 h2
    constructor
    · simp [searchPlacesRun, searchPlaces, h1, h2]
    · have hmark : strIncludes ("Google Maps API error: " ++ resp.status)
          "Google Maps API error" = true :=
        strIncludes_of_append "Google Maps API error" (": " ++ resp.status)
      simp [errorHandler, hmark]
  · intro apiKey msg hmsg
    exact ⟨rfl, by simp [errorHandler, hmsg]⟩

/-- Witness for C2: status REQUEST_DENIED is surfaced as a preserved
502 GOOGLE_MAPS_ERROR; a network failure message ECONNRESET becomes a
generic 500. -/
theorem C2_errorHandler_upstream_witness :
    searchPlacesRun "K" (.response ⟨"REQUEST_DENIED", []⟩) =
        .error ("Google Maps API error: " ++ "REQUEST_DENIED")
    ∧ errorHandler (.error ("Google Maps API error: " ++ "REQUEST_DENIED")) =
        (⟨"GOOGLE_MAPS_ERROR", "Google Maps API error: " ++ "REQUEST_DENIED", 502, none⟩,
          502)
    ∧ searchPlacesRun "K" (.failure "ECONNRESET") = .error "ECONNRESET"
    ∧ errorHandler (.error "ECONNRESET") =
        (⟨"INTERNAL_SERVER_ERROR", "An unexpected error occurred", 500, none⟩, 500) := by
  have h1 := C2_errorHandler_upstream.1 "K" ⟨"REQUEST_DENIED", []⟩ (by decide) (by decide)
  have h2 := C2_errorHandler_upstream.2 "K" "ECONNRESET" (by decide)
  exact ⟨h1.1, h1.2, h2.1, h2.2⟩

/-- C2 counterexample: a failed outbound HTTP call (message ECONNRESET)
is rethrown unchanged by the gateway, and the error normalizer
classifies it as INTERNAL_SERVER_ERROR 500 with a generic message — not
as GOOGLE_MAPS_ERROR 502 with the original message, as the claim
states for every upstream failure. -/
theorem C2_errorHandler_counterexample :
    exceptErrMsg (searchPlacesRun "K" (.failure "ECONNRESET")) = some "ECONNRESET"
    ∧ (errorHandler (.error "ECONNRESET")).2 = 500
    ∧ (errorHandler (.error "ECONNRESET")).1.error = "INTERNAL_SERVER_ERROR"
    ∧ (errorHandler (.error "ECONNRESET")).1.error ≠ "GOOGLE_MAPS_ERROR"
    ∧ (errorHandler (.error "ECONNRESET")).1.message ≠ "ECONNRESET"
    ∧ (errorHandler (.error "ECONNRESET")).2 ≠ 502 := by decide

/-! ## C6: upstream status policy -/

/-- C6 (amended): `searchPlaces` and `getNearbyPlaces` succeed exactly
when the provider status is "OK" or "ZERO_RESULTS" (and return the empty
list whenever the provider result array is empty, as with ZERO_RESULTS);
`getPlaceDetails` succeeds exactly when the status is "OK";
`getDirections` succeeds exactly when the status is "OK" and the
response carries at least one route whose legs array is nonempty (with
status "OK" but a missing first route or first leg it fails with a
TypeError instead); whenever the status check itself fails, the raised
error carries the provider status string. -/
theorem C6_upstream_status_policy :
    (∀ apiKey resp,
      ((∃ v, searchPlaces apiKey resp = .ok v) ↔
        resp.status = "OK" ∨ resp.status = "ZERO_RESULTS")
      ∧ ((∃ v, getNearbyPlaces apiKey resp = .ok v) ↔
        resp.status = "OK" ∨ resp.status = "ZERO_RESULTS")
      ∧ (resp.status ≠ "OK" → resp.status ≠ "ZERO_RESULTS" →
          searchPlaces apiKey resp = .error ("Google Maps API error: " ++ resp.status)
          ∧ getNearbyPlaces apiKey resp =
            .error ("Google Maps API error: " ++ resp.status))
      ∧ (resp.results = [] →
          (resp.status = "OK" ∨ resp.status = "ZERO_RESULTS") →
          searchPlaces apiKey resp = .ok []))
    ∧ (∀ apiKey resp,
        ((∃ v, getPlaceDetails apiKey resp = .ok v) ↔ resp.status = "OK")
        ∧ (resp.status ≠ "OK" →
            getPlaceDetails apiKey resp = .error ("Google Maps API error: " ++ resp.status)))
    ∧ (∀ apiKey params resp,
        ((∃ v, getDirections apiKey params resp = .ok v) ↔
          resp.status = "OK" ∧
            ∃ route rest, resp.routes = route :: rest ∧ route.legs ≠ [])
        ∧ (resp.status ≠ "OK" →
            getDirections apiKey params resp =
              .error ("Google Maps API error: " ++ resp.status))) := by
  refine ⟨?_, ?_, ?_⟩
  · intro apiKey resp
    by_cases hok : resp.status = "OK" ∨ resp.status = "ZERO_RESULTS"
    · have hcond : ¬ (resp.status ≠ "OK" ∧ resp.status ≠ "ZERO_RESULTS") := by tauto
      refine ⟨?_, ?_, ?_, ?_⟩
      · simp [searchPlaces, hcond, hok]
      · simp [getNearbyPlaces, hcond, hok]
      · intro h1 h2
        exact absurd hok (by tauto)
      · intro hres _
        simp [searchPlaces, hcond, hres]
    · have hcond : resp.status ≠ "OK" ∧ resp.status ≠ "ZERO_RESULTS" := by tauto
      refine ⟨?_, ?_, ?_, ?_⟩
      · simp [searchPlaces, hcond, hok]
      · simp [getNearbyPlaces, hcond, hok]
      · intro _ _
        exact ⟨by simp [searchPlaces, hcond], by simp [getNearbyPlaces, hcond]⟩
      · intro _ h
        exact absurd h hok
  · intro apiKey resp
    by_cases hok : resp.status = "OK"
    · exact ⟨by simp [getPlaceDetails, hok], fun h => absurd hok h⟩
    · exact ⟨by simp [getPlaceDetails, hok], fun _ => by simp [getPlaceDetails, hok]⟩
  · intro apiKey params resp
    by_cases hok : resp.status = "OK"
    · constructor
      · cases hroutes : resp.routes with
        | nil => simp [getDirections, hok, hroutes]
        | cons route rest =>
          cases hlegs : route.legs with
          | nil => simp [getDirections, hok, hroutes, hlegs]
          | cons leg ltl =>
            constructor
            · intro _
              exact ⟨hok, route, rest, rfl, by simp [hlegs]⟩
            · intro _
              cases hgd : getDirections apiKey params resp with
              | ok v => exact ⟨v, rfl⟩
              | error m =>
                exfalso
                simp [getDirections, hok, hroutes, hlegs] at hgd
      · intro h
        exact absurd hok h
    · constructor
      · simp [getDirections, hok]
      · intro _
        simp [getDirections, hok]

/-- Witness for C6: concrete instances of each implication — a denied
status yields the status-carrying error for search and nearby; an empty
ZERO_RESULTS response yields the empty list; a NOT_FOUND status yields
the status-carrying error for details and directions. -/
theorem C6_upstream_status_policy_witness :
    searchPlaces "K" ⟨"REQUEST_DENIED", []⟩ =
        .error ("Google Maps API error: " ++ "REQUEST_DENIED")
    ∧ getNearbyPlaces "K" ⟨"REQUEST_DENIED", []⟩ =
        .error ("Google Maps API error: " ++ "REQUEST_DENIED")
    ∧ searchPlaces "K" ⟨"ZERO_RESULTS", []⟩ = .ok []
    ∧ getPlaceDetails "K" ⟨"NOT_FOUND", { place_id := some "p" }⟩ =
        .error ("Google Maps API error: " ++ "NOT_FOUND")
    ∧ getDirections "K" ⟨"A", "B", none⟩ ⟨"NOT_FOUND", []⟩ =
        .error ("Google Maps API error: " ++ "NOT_FOUND") := by
  have h1 := (C6_upstream_status_policy.1 "K" ⟨"REQUEST_DENIED", []⟩).2.2.1
    (by decide) (by decide)
  have h2 := (C6_upstream_status_policy.1 "K" ⟨"ZERO_RESULTS", []⟩).2.2.2
    rfl (Or.inr rfl)
  have h3 := (C6_upstream_status_policy.2.1 "K"
    ⟨"NOT_FOUND", { place_id := some "p" }⟩).2 (by decide)
  have h4 := (C6_upstream_status_policy.2.2 "K" ⟨"A", "B", none⟩ ⟨"NOT_FOUND", []⟩).2
    (by decide)
  exact ⟨h1.1, h1.2, h2, h3, h4⟩

/-- C6 counterexample: a directions response with status "OK" but an
empty routes array does not succeed — it throws a TypeError whose
message does not carry the provider status — refuting "getDirections
succeeds if and only if the status is OK" and "in every other case the
operation raises an error carrying the provider status string". -/
theorem C6_upstream_status_counterexample :
    exceptErrMsg (getDirections "K" ⟨"A", "B", none⟩ ⟨"OK", []⟩) =
        some "TypeError: Cannot read properties of undefined (reading legs)"
    ∧ "TypeError: Cannot read properties of undefined (reading legs)" ≠
        "Google Maps API error: " ++ "OK" := by decide

/-! ## C3: markup stripping in directions steps -/

/-- `afterGt` never lengthens the list. -/
theorem afterGt_length_le (l : List Char) : (afterGt l).length ≤ l.length := by
  induction l with
  | nil => simp [afterGt]
  | cons c rest ih =>
    rw [afterGt]
    split
    · simp
    · exact le_trans ih (by simp)

/-- Every character of `afterGt l` comes from `l`. -/
theorem mem_afterGt (a : Char) : ∀ l : List Char, a ∈ afterGt l → a ∈ l := by
  intro l
  induction l with
  | nil => intro h; simp [afterGt] at h
  | cons c rest ih =>
    intro h
    rw [afterGt] at h
    split at h
    · exact List.mem_cons_of_mem c h
    · exact List.mem_cons_of_mem c (ih h)

/-- Every character of the stripped list comes from the input. -/
theorem mem_stripTagsGo (a : Char) (fuel : Nat) :
    ∀ l : List Char, a ∈ stripTagsGo fuel l → a ∈ l := by
  induction fuel with
  | zero => intro l h; simpa [stripTagsGo] using h
  | succ fuel ih =>
    intro l h
    cases l with
    | nil => simp [stripTagsGo] at h
    | cons c rest =>
      rw [stripTagsGo] at h
      split at h
      · exact List.mem_cons_of_mem c (mem_afterGt a _ (ih _ h))
      · rcases List.mem_cons.mp h with h | h
        · exact h ▸ List.mem_cons_self c rest
        · exact List.mem_cons_of_mem c (ih _ h)

/-- Stripping cannot introduce a `>`. -/
theorem hasGtL_stripTagsGo_false (fuel : Nat) (l : List Char)
    (h : hasGtL l = false) : hasGtL (stripTagsGo fuel l) = false := by
  rw [hasGtL, List.any_eq_false] at h ⊢
  intro x hx
  exact h x (mem_stripTagsGo x fuel l hx)

/-- With enough fuel, the stripped list contains no `<` that is followed
by a later `>`: every complete `<...>` token has been removed. -/
theorem hasLtThenGtL_stripTagsGo (fuel : Nat) :
    ∀ l : List Char, l.length ≤ fuel → hasLtThenGtL (stripTagsGo fuel l) = false := by
  induction fuel with
  | zero =>
    intro l hl
    have : l = [] := List.length_eq_zero.mp (Nat.le_zero.mp hl)
    subst this
    rfl
  | succ fuel ih =>
    intro l hl
    cases l with
    | nil => rfl
    | cons c rest =>
      have hrest : rest.length ≤ fuel := by simpa using hl
      rw [stripTagsGo]
      split
      · exact ih _ (le_trans (afterGt_length_le rest) hrest)
      · next hcond =>
        have htail : hasLtThenGtL (stripTagsGo fuel rest) = false := ih rest hrest
        rw [hasLtThenGtL, Bool.or_eq_false_iff]
        refine ⟨?_, htail⟩
        by_cases hlt : c == '<'
        · have hgt : hasGtL rest = false := by
            cases hgl : hasGtL rest
            · rfl
            · exact absurd (by simp [hlt, hgl]) hcond
          rw [hasGtL_stripTagsGo_false fuel rest hgt, Bool.and_false]
        · rw [Bool.eq_false_iff.mpr hlt, Bool.false_and]

/-- The stripped form of any string contains no complete `<...>` token. -/
theorem hasLtThenGt_stripTags (s : String) : hasLtThenGt (stripTags s) = false :=
  hasLtThenGtL_stripTagsGo s.data.length s.data le_rfl

/-- C3 (amended): in every successful `getDirections` result, each step
instruction — produced by the markup-stripping transform that removes
every `<...>` token and performs no other escaping — contains no `<`
that is followed by a later `>`; i.e. no complete `<...>` token ever
survives normalization.  (A lone unmatched `<` or `>` from malformed
markup can survive, so the instruction is not always free of both
characters.) -/
theorem C3_getDirections_strips_tags
    (apiKey : String) (params : GetDirectionsParams) (resp : DirectionsResponse)
    (dr : DirectionsResult) (h : getDirections apiKey params resp = .ok dr) :
    ∀ step ∈ dr.steps, hasLtThenGt step.instruction = false := by
  intro step hstep
  obtain ⟨status, routes⟩ := resp
  cases routes with
  | nil =>
    rw [getDirections] at h
    split at h
    · exact absurd h (by simp)
    · exact absurd h (by simp)
  | cons route rtl =>
    obtain ⟨summary, legs⟩ := route
    cases legs with
    | nil =>
      rw [getDirections] at h
      split at h
      · exact absurd h (by simp)
      · exact absurd h (by simp)
    | cons leg ltl =>
      rw [getDirections] at h
      split at h
      · exact absurd h (by simp)
      · injection h with h
        subst h
        simp only [List.mem_map] at hstep
        obtain ⟨s0, _, hs0⟩ := hstep
        rw [← hs0]
        exact hasLtThenGt_stripTags s0.html_instructions

/-- Witness for C3: a successful directions call whose single step was
normalized from markup-bearing provider text has an instruction with no
surviving `<...>` token. -/
theorem C3_getDirections_strips_tags_witness :
    hasLtThenGt (DirectionsStep.instruction
      ⟨stripTags "<b>Left</b>", "1 km", "1 min"⟩) = false :=
  C3_getDirections_strips_tags "K" ⟨"A", "B", none⟩
    ⟨"OK", [⟨"sum", [⟨⟨"1 km", 1⟩, ⟨"1 min", 1⟩, "A", "B",
      [⟨"<b>Left</b>", ⟨"1 km", 1⟩, ⟨"1 min", 1⟩⟩]⟩]⟩]⟩
    ⟨"sum", ⟨"1 km", 1⟩, ⟨"1 min", 1⟩, "A", "B",
      [⟨stripTags "<b>Left</b>", "1 km", "1 min"⟩],
      generateDirectionsUrl "A" "B" none,
      generateEmbedDirectionsUrl "K" "A" "B" none⟩
    rfl
    ⟨stripTags "<b>Left</b>", "1 km", "1 min"⟩ (by simp)

/-- C3 counterexample: the provider instruction `<b>Turn left</b`
contains HTML markup (the complete token `<b>` — and indeed a `<`
followed by a `>`), yet the normalized instruction the successful
`getDirections` call produces still contains a `<` character, refuting
"contains neither `<` nor `>` after normalization for any input
containing HTML markup". -/
theorem C3_getDirections_counterexample :
    ((getDirections "K" ⟨"A", "B", none⟩
        ⟨"OK", [⟨"sum", [⟨⟨"1 km", 1⟩, ⟨"1 min", 1⟩, "A", "B",
          [⟨"<b>Turn left</b", ⟨"1 km", 1⟩, ⟨"1 min", 1⟩⟩]⟩]⟩]⟩).toOption.map
      fun dr => dr.steps.map fun s => s.instruction) = some ["Turn left</b"]
    ∧ hasLtThenGt "<b>Turn left</b" = true
    ∧ '<' ∈ "Turn left</b".data := by decide

/-! ## C5: place URLs -/

/-- Appending cannot erase a nonempty character list. -/
theorem strData_append_ne (a b : String) (h : a.data ≠ []) : (a ++ b).data ≠ [] := by
  rw [strData_append]
  intro he
  exact h (List.append_eq_nil.mp he).1

/-- C5: for every place object accepted by `formatPlaceResult` —
including ones without geometry — both `googleMapsUrl` and `embedMapUrl`
are present, non-empty, https-scheme URLs; the embed query is
`place_id:<id>` whenever the place identifier is available (truthy), and
otherwise is the rendered lat/lng slots joined with a comma (the slots
render as "undefined" when geometry is absent). -/
theorem C5_formatPlaceResult_urls (apiKey : String) (place : GPlace) :
    (formatPlaceResult apiKey place).googleMapsUrl ≠ ""
    ∧ strStartsWith "https://" (formatPlaceResult apiKey place).googleMapsUrl = true
    ∧ (formatPlaceResult apiKey place).embedMapUrl ≠ ""
    ∧ strStartsWith "https://" (formatPlaceResult apiKey place).embedMapUrl = true
    ∧ (∀ pid, place.place_id = some pid → pid ≠ "" →
        (formatPlaceResult apiKey place).embedMapUrl =
          "https://www.google.com/maps/embed/v1/place?key=" ++ apiKey ++ "&q=" ++
            encodeURIComponent ("place_id:" ++ pid))
    ∧ ((place.place_id = none ∨ place.place_id = some "") →
        (formatPlaceResult apiKey place).embedMapUrl =
          "https://www.google.com/maps/embed/v1/place?key=" ++ apiKey ++ "&q=" ++
            encodeURIComponent
              (jsShowCoordOpt ((place.geometry.bind fun g => g.location).bind fun l => l.lat)
                ++ "," ++
                jsShowCoordOpt
                  ((place.geometry.bind fun g => g.location).bind fun l => l.lng))) := by
  refine ⟨?_, ?_, ?_, ?_, ?_, ?_⟩
  · show generatePlaceUrl place.place_id ≠ ""
    exact strAppend_ne_empty _ _ (by decide)
  · show strStartsWith "https://" (generatePlaceUrl place.place_id) = true
    exact strStartsWith_append _ _ _ (by decide)
  · show generateEmbedMapUrl apiKey
      ((place.geometry.bind fun g => g.location).bind fun l => l.lat)
      ((place.geometry.bind fun g => g.location).bind fun l => l.lng)
      place.place_id ≠ ""
    simp only [generateEmbedMapUrl]
    exact strAppend_ne_empty _ _ (strData_append_ne _ _ (strData_append_ne _ _ (by decide)))
  · show strStartsWith "https://" (generateEmbedMapUrl apiKey
      ((place.geometry.bind fun g => g.location).bind fun l => l.lat)
      ((place.geometry.bind fun g => g.location).bind fun l => l.lng)
      place.place_id) = true
    simp only [generateEmbedMapUrl]
    exact strStartsWith_append _ _ _ (strStartsWith_append _ _ _
      (strStartsWith_append _ _ _ (by decide)))
  · intro pid hpid hne
    show generateEmbedMapUrl apiKey
      ((place.geometry.bind fun g => g.location).bind fun l => l.lat)
      ((place.geometry.bind fun g => g.location).bind fun l => l.lng)
      place.place_id = _
    rw [hpid]
    simp [generateEmbedMapUrl, hne]
  · intro hfalsy
    show generateEmbedMapUrl apiKey
      ((place.geometry.bind fun g => g.location).bind fun l => l.lat)
      ((place.geometry.bind fun g => g.location).bind fun l => l.lng)
      place.place_id = _
    rcases hfalsy with hpid | hpid <;> rw [hpid] <;> simp [generateEmbedMapUrl]

/-- Witness for C5: a place with an id but no geometry gets a
`place_id:`-query embed URL and a nonempty canonical URL; a fully empty
place object still gets both URLs, with the embed query falling back to
the rendered (undefined) coordinate slots. -/
theorem C5_formatPlaceResult_urls_witness :
    (formatPlaceResult "K" { place_id := some "abc" }).embedMapUrl =
      "https://www.google.com/maps/embed/v1/place?key=" ++ "K" ++ "&q=" ++
        encodeURIComponent ("place_id:" ++ "abc")
    ∧ (formatPlaceResult "K" { place_id := some "abc" }).googleMapsUrl ≠ ""
    ∧ (formatPlaceResult "K" {}).embedMapUrl =
      "https://www.google.com/maps/embed/v1/place?key=" ++ "K" ++ "&q=" ++
        encodeURIComponent ("undefined" ++ "," ++ "undefined")
    ∧ (formatPlaceResult "K" {}).embedMapUrl ≠ "" := by
  have h1 := C5_formatPlaceResult_urls "K" { place_id := some "abc" }
  have h2 := C5_formatPlaceResult_urls "K" {}
  exact ⟨h1.2.2.2.2.1 "abc" rfl (by decide), h1.1,
    h2.2.2.2.2.2 (Or.inl rfl), h2.2.2.1⟩

/-! ## C9: review truncation -/

/-- C9: every successful place-details result truncates the provider
review list with `slice(0, 5)`: at most five reviews are kept, and they
are exactly the first five of the provider list, in order. -/
theorem C9_getPlaceDetails_reviews
    (apiKey : String) (resp : PlaceDetailsResponse) (pd : PlaceDetails)
    (h : getPlaceDetails apiKey resp = .ok pd) :
    ((pd.reviews).getD []).length ≤ 5
    ∧ pd.reviews = resp.result.reviews.map fun rs => (rs.take 5).map formatReview := by
  rw [getPlaceDetails] at h
  split at h
  · exact absurd h (by simp)
  · injection h with h
    subst h
    refine ⟨?_, rfl⟩
    show (((resp.result.reviews.map fun rs => (rs.take 5).map formatReview).getD
      []).length ≤ 5)
    cases hr : resp.result.reviews with
    | none => simp
    | some rs =>
      simp only [Option.map_some', Option.getD_some, List.length_map, List.length_take]
      exact min_le_left _ _

/-- Witness for C9: a response with seven provider reviews yields
exactly the first five, in order. -/
theorem C9_getPlaceDetails_reviews_witness :
    ((details9.reviews).getD []).length ≤ 5
    ∧ details9.reviews =
        detailsResp9.result.reviews.map fun rs => (rs.take 5).map formatReview :=
  C9_getPlaceDetails_reviews "K" detailsResp9 details9 rfl

/-! ## C7: search-places validation -/

/-- The query field has no issue exactly when it satisfies its schema. -/
theorem queryIssues_nil_iff (o : Option JVal) :
    queryIssues o = [] ↔ queryOkB o = true := by
  cases o with
  | none => simp [queryIssues, queryOkB]
  | some v =>
    cases v with
    | str s =>
      simp [queryIssues, queryOkB, List.append_eq_nil, ite_eq_right_iff, not_lt]
      omega
    | null => simp [queryIssues, queryOkB]
    | bool b => simp [queryIssues, queryOkB]
    | num q => simp [queryIssues, queryOkB]
    | arr a => simp [queryIssues, queryOkB]
    | obj f => simp [queryIssues, queryOkB]

/-- The location field has no issue exactly when it satisfies its schema. -/
theorem locationIssues_nil_iff (o : Option JVal) :
    locationIssues o = [] ↔ optStrOkB o = true := by
  cases o with
  | none => simp [locationIssues, optStrOkB]
  | some v => cases v <;> simp [locationIssues, optStrOkB]

/-- The radius field has no issue exactly when it satisfies its schema. -/
theorem radiusIssues_nil_iff (o : Option JVal) :
    radiusIssues o = [] ↔ radiusOkB o = true := by
  cases o with
  | none => simp [radiusIssues, radiusOkB]
  | some v =>
    cases v with
    | num q => simp [radiusIssues, radiusOkB, List.append_eq_nil, ite_eq_right_iff, not_lt]
    | str s => simp [radiusIssues, radiusOkB]
    | null => simp [radiusIssues, radiusOkB]
    | bool b => simp [radiusIssues, radiusOkB]
    | arr a => simp [radiusIssues, radiusOkB]
    | obj f => simp [radiusIssues, radiusOkB]

/-- The type field has no issue exactly when it satisfies its schema. -/
theorem typeIssues_nil_iff (o : Option JVal) :
    typeIssues o = [] ↔ optStrOkB o = true := by
  cases o with
  | none => simp [typeIssues, optStrOkB]
  | some v => cases v <;> simp [typeIssues, optStrOkB]

/-- Every query issue is reported at path ["query"]. -/
theorem queryIssues_path (o : Option JVal) : ∀ i ∈ queryIssues o, i.path = ["query"] := by
  intro i hi
  cases o with
  | none =>
    simp only [queryIssues, List.mem_singleton] at hi
    rw [hi]
  | some v =>
    cases v with
    | str s =>
      simp only [queryIssues] at hi
      rcases List.mem_append.mp hi with h | h <;> split at h <;>
        first
          | exact absurd h (List.not_mem_nil i)
          | rw [List.mem_singleton.mp h]
    | null => simp only [queryIssues, List.mem_singleton] at hi; rw [hi]
    | bool b => simp only [queryIssues, List.mem_singleton] at hi; rw [hi]
    | num q => simp only [queryIssues, List.mem_singleton] at hi; rw [hi]
    | arr a => simp only [queryIssues, List.mem_singleton] at hi; rw [hi]
    | obj f => simp only [queryIssues, List.mem_singleton] at hi; rw [hi]

/-- Every location issue is reported at path ["location"]. -/
theorem locationIssues_path (o : Option JVal) :
    ∀ i ∈ locationIssues o, i.path = ["location"] := by
  intro i hi
  cases o with
  | none => exact absurd hi (List.not_mem_nil i)
  | some v =>
    cases v with
    | str s => exact absurd hi (List.not_mem_nil i)
    | null => simp only [locationIssues, List.mem_singleton] at hi; rw [hi]
    | bool b => simp only [locationIssues, List.mem_singleton] at hi; rw [hi]
    | num q => simp only [locationIssues, List.mem_singleton] at hi; rw [hi]
    | arr a => simp only [locationIssues, List.mem_singleton] at hi; rw [hi]
    | obj f => simp only [locationIssues, List.mem_singleton] at hi; rw [hi]

/-- Every radius issue is reported at path ["radius"]. -/
theorem radiusIssues_path (o : Option JVal) :
    ∀ i ∈ radiusIssues o, i.path = ["radius"] := by
  intro i hi
  cases o with
  | none => exact absurd hi (List.not_mem_nil i)
  | some v =>
    cases v with
    | num q =>
      simp only [radiusIssues] at hi
      rcases List.mem_append.mp hi with h | h <;> split at h <;>
        first
          | exact absurd h (List.not_mem_nil i)
          | rw [List.mem_singleton.mp h]
    | str s => simp only [radiusIssues, List.mem_singleton] at hi; rw [hi]
    | null => simp only [radiusIssues, List.mem_singleton] at hi; rw [hi]
    | bool b => simp only [radiusIssues, List.mem_singleton] at hi; rw [hi]
    | arr a => simp only [radiusIssues, List.mem_singleton] at hi; rw [hi]
    | obj f => simp only [radiusIssues, List.mem_singleton] at hi; rw [hi]

/-- Every type issue is reported at path ["type"]. -/
theorem typeIssues_path (o : Option JVal) : ∀ i ∈ typeIssues o, i.path = ["type"] := by
  intro i hi
  cases o with
  | none => exact absurd hi (List.not_mem_nil i)
  | some v =>
    cases v with
    | str s => exact absurd hi (List.not_mem_nil i)
    | null => simp only [typeIssues, List.mem_singleton] at hi; rw [hi]
    | bool b => simp only [typeIssues, List.mem_singleton] at hi; rw [hi]
    | num q => simp only [typeIssues, List.mem_singleton] at hi; rw [hi]
    | arr a => simp only [typeIssues, List.mem_singleton] at hi; rw [hi]
    | obj f => simp only [typeIssues, List.mem_singleton] at hi; rw [hi]

/-- C7 (amended): the validator accepts a body exactly when the query is
a string of length in [1, 500], the radius, when present, is a number in
[1, 50000], and location and type, when present, are strings; the radius
defaults to 5000 when absent; and on failure the issue list reports
every violated field (at its field path), not just the first. -/
theorem C7_SearchPlacesSchema (body : JVal) :
    (exceptIsOk (SearchPlacesSchemaParse body) = true ↔
      searchPlacesAcceptAmended body = true)
    ∧ (∀ fields p, body = .obj fields → getField fields "radius" = none →
        SearchPlacesSchemaParse body = .ok p → p.radius = 5000)
    ∧ (∀ fields is, body = .obj fields → SearchPlacesSchemaParse body = .error is →
        (queryIssues (getField fields "query") ≠ [] → ∃ i ∈ is, i.path = ["query"])
        ∧ (locationIssues (getField fields "location") ≠ [] →
            ∃ i ∈ is, i.path = ["location"])
        ∧ (radiusIssues (getField fields "radius") ≠ [] → ∃ i ∈ is, i.path = ["radius"])
        ∧ (typeIssues (getField fields "type") ≠ [] → ∃ i ∈ is, i.path = ["type"])) := by
  refine ⟨?_, ?_, ?_⟩
  · cases body with
    | obj fields =>
      simp only [SearchPlacesSchemaParse, searchPlacesAcceptAmended]
      split
      · next h =>
        simp only [List.append_eq_nil] at h
        obtain ⟨⟨⟨hq, hl⟩, hr⟩, ht⟩ := h
        simp [exceptIsOk, (queryIssues_nil_iff _).mp hq, (locationIssues_nil_iff _).mp hl,
          (radiusIssues_nil_iff _).mp hr, (typeIssues_nil_iff _).mp ht]
      · next h =>
        simp only [exceptIsOk, Bool.false_eq_true, false_iff]
        intro hacc
        apply h
        simp only [Bool.and_eq_true] at hacc
        obtain ⟨⟨⟨hq, hl⟩, hr⟩, ht⟩ := hacc
        simp [List.append_eq_nil, (queryIssues_nil_iff _).mpr hq,
          (locationIssues_nil_iff _).mpr hl, (radiusIssues_nil_iff _).mpr hr,
          (typeIssues_nil_iff _).mpr ht]
    | null => simp [SearchPlacesSchemaParse, searchPlacesAcceptAmended, exceptIsOk]
    | bool b => simp [SearchPlacesSchemaParse, searchPlacesAcceptAmended, exceptIsOk]
    | num q => simp [SearchPlacesSchemaParse, searchPlacesAcceptAmended, exceptIsOk]
    | str s => simp [SearchPlacesSchemaParse, searchPlacesAcceptAmended, exceptIsOk]
    | arr a => simp [SearchPlacesSchemaParse, searchPlacesAcceptAmended, exceptIsOk]
  · intro fields p hbody hrad hparse
    subst hbody
    simp only [SearchPlacesSchemaParse] at hparse
    split at hparse
    · injection hparse with hp
      subst hp
      show radiusVal (getField fields "radius") = 5000
      rw [hrad]
      rfl
    · exact absurd hparse (by simp)
  · intro fields is hbody herr
    subst hbody
    simp only [SearchPlacesSchemaParse] at herr
    split at herr
    · exact absurd herr (by simp)
    · injection herr with herr
      subst herr
      refine ⟨?_, ?_, ?_, ?_⟩
      · intro hne
        obtain ⟨i, hi⟩ := List.exists_mem_of_ne_nil _ hne
        exact ⟨i, List.mem_append_left _ (List.mem_append_left _
          (List.mem_append_left _ hi)), queryIssues_path _ i hi⟩
      · intro hne
        obtain ⟨i, hi⟩ := List.exists_mem_of_ne_nil _ hne
        exact ⟨i, List.mem_append_left _ (List.mem_append_left _
          (List.mem_append_right _ hi)), locationIssues_path _ i hi⟩
      · intro hne
        obtain ⟨i, hi⟩ := List.exists_mem_of_ne_nil _ hne
        exact ⟨i, List.mem_append_left _ (List.mem_append_right _ hi),
          radiusIssues_path _ i hi⟩
      · intro hne
        obtain ⟨i, hi⟩ := List.exists_mem_of_ne_nil _ hne
        exact ⟨i, List.mem_append_right _ hi, typeIssues_path _ i hi⟩

/-- Witness for C7: a body with only a valid query is accepted with
radius defaulted to 5000; a body with an empty query and radius 0 fails
with issues reported at both the query and the radius paths. -/
theorem C7_SearchPlacesSchema_witness :
    (exceptIsOk (SearchPlacesSchemaParse (JVal.obj [("query", JVal.str "coffee")])) = true ↔
      searchPlacesAcceptAmended (JVal.obj [("query", JVal.str "coffee")]) = true)
    ∧ SearchPlacesParsed.radius ⟨"coffee", none, 5000, none⟩ = 5000
    ∧ (∃ i ∈ ([⟨["query"], "Query is required"⟩,
          ⟨["radius"], "Number must be greater than or equal to 1"⟩] : List ZodIssue),
        i.path = ["query"])
    ∧ (∃ i ∈ ([⟨["query"], "Query is required"⟩,
          ⟨["radius"], "Number must be greater than or equal to 1"⟩] : List ZodIssue),
        i.path = ["radius"]) := by
  have h1 := (C7_SearchPlacesSchema (JVal.obj [("query", JVal.str "coffee")])).1
  have h2 := (C7_SearchPlacesSchema (JVal.obj [("query", JVal.str "coffee")])).2.1
    [("query", JVal.str "coffee")] ⟨"coffee", none, 5000, none⟩ rfl rfl rfl
  have h3 := (C7_SearchPlacesSchema
      (JVal.obj [("query", JVal.str ""), ("radius", JVal.num 0)])).2.2
    [("query", JVal.str ""), ("radius", JVal.num 0)]
    [⟨["query"], "Query is required"⟩,
      ⟨["radius"], "Number must be greater than or equal to 1"⟩]
    rfl rfl
  exact ⟨h1, h2, h3.1 (by decide), h3.2.2.1 (by decide)⟩

/-- C7 counterexample: a body whose query is valid and whose radius is
absent — so it satisfies the claimed acceptance condition — is
nevertheless rejected by the validator because its `location` field is
a number, refuting the claimed "accepts if and only if". -/
theorem C7_SearchPlacesSchema_counterexample :
    searchPlacesAcceptClaimed
        (JVal.obj [("query", JVal.str "coffee"), ("location", JVal.num 42)]) = true
    ∧ exceptIsOk (SearchPlacesSchemaParse
        (JVal.obj [("query", JVal.str "coffee"), ("location", JVal.num 42)])) = false := by
  decide
